import Mathlib

/--
Shallow embedding of the congestion-monitor service (Python repository).

Modelling conventions:
* Python floats are modelled as exact rationals (`ℚ`); the algorithms under
  study are real-arithmetic formulas (EMA blends, z-scores, thresholds) and the
  claims are about those formulas, not about IEEE rounding.
* Python's `x ** 0.5` on a rational is modelled by `ratSqrt`, the componentwise
  integer square root of numerator and denominator; it coincides with the real
  square root exactly on perfect-square rationals, which is where every
  concrete statement below evaluates it.
* Side-effecting functions are embedded as pure functions over explicit state
  (the Redis key contents they read and write); fallible database access is
  embedded as a sum type of the outcomes the Python code distinguishes.
-/
def modellingConventions : String := "floats as rationals, state passed explicitly"

/-- `MIN_SAMPLES_FOR_CALIBRATION = 50` (congestion.py line 29). -/
def MIN_SAMPLES_FOR_CALIBRATION : ℕ := 50

/-- `FALLBACK_SPEED_HIGH = 15` (congestion.py line 32). -/
def FALLBACK_SPEED_HIGH : ℚ := 15

/-- `FALLBACK_SPEED_MODERATE = 40` (congestion.py line 33). -/
def FALLBACK_SPEED_MODERATE : ℚ := 40

/-- `FALLBACK_COUNT_HIGH = 30` (congestion.py line 34). -/
def FALLBACK_COUNT_HIGH : ℤ := 30

/-- `FALLBACK_COUNT_MODERATE = 10` (congestion.py line 35). -/
def FALLBACK_COUNT_MODERATE : ℤ := 10

/-- `Z_THRESHOLD_HIGH = 1.5` (congestion.py line 38). -/
def Z_THRESHOLD_HIGH : ℚ := 3 / 2

/-- `Z_THRESHOLD_MODERATE = 0.5` (congestion.py line 39). -/
def Z_THRESHOLD_MODERATE : ℚ := 1 / 2

/-- `WINDOW_SECONDS = 300` (time_utils.py line 3). -/
def WINDOW_SECONDS : ℤ := 300

/-- Exact square root on the rational model of floats: integer square root of
numerator and denominator.  On perfect-square rationals (the only points where
the development evaluates it concretely) this equals the real square root; it
stands in for Python's `x ** 0.5`. -/
def ratSqrt (q : ℚ) : ℚ := (Nat.sqrt q.num.toNat : ℚ) / (Nat.sqrt q.den : ℚ)

/-- `CellBaseline` dataclass (congestion.py lines 42-64): historical baseline
statistics for a single hexagon cell, with the Python default field values. -/
structure CellBaseline where
  avg_speed : ℚ := 0
  avg_count : ℚ := 0
  speed_variance : ℚ := 0
  count_variance : ℚ := 0
  sample_count : ℕ := 0
deriving DecidableEq

/-- `CellBaseline.speed_std` property (congestion.py lines 51-54):
`variance ** 0.5 if variance > 0 else 1.0`. -/
def CellBaseline.speed_std (b : CellBaseline) : ℚ :=
  if b.speed_variance > 0 then ratSqrt b.speed_variance else 1

/-- `CellBaseline.count_std` property (congestion.py lines 56-59):
`variance ** 0.5 if variance > 0 else 1.0`. -/
def CellBaseline.count_std (b : CellBaseline) : ℚ :=
  if b.count_variance > 0 then ratSqrt b.count_variance else 1

/-- `CellBaseline.is_calibrated` property (congestion.py lines 61-64):
`sample_count >= MIN_SAMPLES_FOR_CALIBRATION`. -/
def CellBaseline.is_calibrated (b : CellBaseline) : Bool :=
  MIN_SAMPLES_FOR_CALIBRATION ≤ b.sample_count

/-- `calculate_z_score` (congestion.py lines 194-211): replaces a nonpositive
standard deviation by `1.0`, then signs the deviation according to `invert`. -/
def calculate_z_score (value mean std : ℚ) (invert : Bool := false) : ℚ :=
  let std := if std ≤ 0 then 1 else std
  if invert then (mean - value) / std else (value - mean) / std

/-- `_fallback_congestion` (congestion.py lines 283-311): absolute-threshold
congestion levels used while a cell is uncalibrated. -/
def fallback_congestion (count : ℤ) (avg_speed : Option ℚ) : String :=
  match avg_speed with
  | some s =>
    if s < FALLBACK_SPEED_HIGH then "HIGH"
    else if s < FALLBACK_SPEED_MODERATE then "MODERATE"
    else if FALLBACK_COUNT_HIGH ≤ count then "MODERATE"
    else "LOW"
  | none =>
    if FALLBACK_COUNT_HIGH ≤ count then "HIGH"
    else if FALLBACK_COUNT_MODERATE ≤ count then "MODERATE"
    else "LOW"

/-- The debug dictionary assembled by `calculate_congestion_level`
(congestion.py lines 237-270).  The source stores `round(z, 2)` of each z-score
for display; the model keeps the exact values (rounding is presentation only
and no claim concerns it). -/
structure DebugDict where
  method : String
  sample_count : ℕ
  baseline_avg_speed : ℚ
  baseline_avg_count : ℚ
  current_count : ℤ
  current_avg_speed : Option ℚ
  level_reason : String := ""
  count_z : Option ℚ := none
  speed_z : Option ℚ := none
  combined_z : Option ℚ := none
deriving DecidableEq

/-- Final level selection from the combined z-score
(congestion.py lines 272-278). -/
def levelOfCombinedZ (z : ℚ) : String :=
  if Z_THRESHOLD_HIGH ≤ z then "HIGH"
  else if Z_THRESHOLD_MODERATE ≤ z then "MODERATE"
  else "LOW"

/-- `calculate_congestion_level` (congestion.py lines 214-280).  The Python
condition `current_avg_speed is not None and baseline.avg_speed > 0` is split
into the `some` match plus the inner `if`; both failing arms are the same
`count_only` branch of the source. -/
def calculate_congestion_level (current_count : ℤ) (current_avg_speed : Option ℚ)
    (baseline : CellBaseline) : String × DebugDict :=
  let debug : DebugDict :=
    { method := if baseline.is_calibrated then "calibrated" else "fallback"
      sample_count := baseline.sample_count
      baseline_avg_speed := baseline.avg_speed
      baseline_avg_count := baseline.avg_count
      current_count := current_count
      current_avg_speed := current_avg_speed }
  if baseline.is_calibrated = false then
    (fallback_congestion current_count current_avg_speed,
     { debug with level_reason := "insufficient_history" })
  else
    let count_z := calculate_z_score current_count baseline.avg_count baseline.count_std
    match current_avg_speed with
    | some s =>
      if 0 < baseline.avg_speed then
        let speed_z := calculate_z_score s baseline.avg_speed baseline.speed_std true
        let combined_z := (count_z + speed_z) / 2
        (levelOfCombinedZ combined_z,
         { debug with count_z := some count_z, speed_z := some speed_z,
                      combined_z := some combined_z, level_reason := "speed_and_count" })
      else
        (levelOfCombinedZ count_z,
         { debug with count_z := some count_z, combined_z := some count_z,
                      level_reason := "count_only" })
    | none =>
      (levelOfCombinedZ count_z,
       { debug with count_z := some count_z, combined_z := some count_z,
                    level_reason := "count_only" })

/-- Pure core of `update_baseline_with_bucket` (congestion.py lines 314-371).
The source fetches the baseline with `get_baseline` and persists the result
with `save_baseline`; the statistical update between those two calls is this
function of the fetched baseline and the completed bucket's aggregate. -/
def update_baseline_with_bucket (baseline : CellBaseline) (bucket_count : ℤ)
    (bucket_avg_speed : Option ℚ) (alpha : ℚ := 1 / 10) : CellBaseline :=
  if baseline.sample_count = 0 then
    { baseline with
        avg_count := (bucket_count : ℚ)
        avg_speed := match bucket_avg_speed with
          | some s => s
          | none => baseline.avg_speed
        sample_count := 1 }
  else
    let old_avg_count := baseline.avg_count
    let new_avg_count := (1 - alpha) * baseline.avg_count + alpha * (bucket_count : ℚ)
    let count_diff := (bucket_count : ℚ) - old_avg_count
    let new_count_variance := (1 - alpha) * baseline.count_variance + alpha * count_diff ^ 2
    let speedStats : ℚ × ℚ :=
      match bucket_avg_speed with
      | some s =>
        if 0 < baseline.avg_speed then
          let old_avg_speed := baseline.avg_speed
          ((1 - alpha) * baseline.avg_speed + alpha * s,
           (1 - alpha) * baseline.speed_variance + alpha * (s - old_avg_speed) ^ 2)
        else
          (s, baseline.speed_variance)
      | none => (baseline.avg_speed, baseline.speed_variance)
    { avg_speed := speedStats.1
      avg_count := new_avg_count
      speed_variance := speedStats.2
      count_variance := new_count_variance
      sample_count := baseline.sample_count + 1 }

/-- A Python `datetime` as the bucketing code observes it: the epoch seconds
obtained when its wall-clock fields are read as UTC (for an aware datetime
this is its true epoch; `datetime` carries microseconds, hence `ℚ`), plus
whether the value is naive (no `tzinfo`). -/
structure PyDatetime where
  epochUTC : ℚ
  isNaive : Bool
deriving DecidableEq

/-- Python `int()` applied to a float: truncation toward zero. -/
def truncToInt (q : ℚ) : ℤ := if 0 ≤ q then ⌊q⌋ else ⌈q⌉

/-- `current_bucket` (time_utils.py lines 5-12): a naive timestamp first gets
`tzinfo=timezone.utc` attached (its epoch, already read as UTC, is unchanged),
then `int(ts.timestamp()) // WINDOW_SECONDS`.  Note `//` on `ℤ` with positive
divisor is floor division, matching Python. -/
def current_bucket (ts : PyDatetime) : ℤ :=
  let ts := if ts.isNaive then { ts with isNaive := false } else ts
  truncToInt ts.epochUTC / WINDOW_SECONDS

/-- Spec-side bucketing formula, for refinement comparison with
`current_bucket`: `bucket_of(timestamp) = floor(epoch_seconds(timestamp)/300)`
(spec section 4.1). -/
def bucket_of_spec (ts : PyDatetime) : ℤ := ⌊ts.epochUTC / (300 : ℚ)⌋

/-- Outcome of the database lookup performed by `get_baseline`
(congestion.py lines 82-103): the five control paths the source
distinguishes.  A `row` carries nullable columns, as in the schema. -/
inductive DbLookup where
  | unconfigured
  | noSession
  | queryError
  | noRow
  | row (avg_speed avg_count speed_variance count_variance : Option ℚ)
        (sample_count : Option ℕ)
deriving DecidableEq

/-- `get_baseline` (congestion.py lines 72-108): every failure path --
database unconfigured, no session, query exception (caught), missing row --
yields the empty `CellBaseline()`; a row is converted with `or 0` defaults. -/
def get_baseline : DbLookup → CellBaseline
  | .unconfigured => {}
  | .noSession => {}
  | .queryError => {}
  | .noRow => {}
  | .row s c sv cv n =>
    { avg_speed := s.getD 0
      avg_count := c.getD 0
      speed_variance := sv.getD 0
      count_variance := cv.getD 0
      sample_count := n.getD 0 }

/-- True on the four non-row outcomes of the baseline lookup. -/
def DbLookup.isFailure : DbLookup → Bool
  | .row _ _ _ _ _ => false
  | _ => true

/-- Percentile snapshot for a cell.  Modelled from the spec: the
`CellPercentiles` value returned by `get_cell_percentiles`, which `main.py`
calls but which is absent from `congestion.py`; spec section 3 gives its
fields `speed_p25, speed_p50, count_p75, sample_count`. -/
structure CellPercentiles where
  speed_p25 : Option ℚ := none
  speed_p50 : Option ℚ := none
  count_p75 : Option ℚ := none
  sample_count : ℕ := 0
deriving DecidableEq

/-- Modelled from the spec: `get_cell_percentiles` is absent from
`congestion.py` (only `main.py` calls it); per spec section 6 the durable
store adapter "must return a neutral/empty result rather than raising when
unreachable", exactly as its sibling `get_baseline` does for the same four
failure paths. -/
def get_cell_percentiles : DbLookup → CellPercentiles
  | .unconfigured => {}
  | .noSession => {}
  | .queryError => {}
  | .noRow => {}
  | .row p25 p50 p75 _ n =>
    { speed_p25 := p25
      speed_p50 := p50
      count_p75 := p75
      sample_count := n.getD 0 }

/-- TTL of the `history_saved` marker key set by
`flush_completed_bucket_to_history` (main.py line 90: `r.setex(key, 600, 1)`). -/
def HISTORY_SAVED_TTL : ℕ := 600

/-- TTL of a cell+bucket device set and speed list
(main.py line 191, congestion.py line 174: `r.expire(key, 300)`). -/
def BUCKET_TTL : ℕ := 300

/-- One row of the `bucket_history` table (database.py lines 32-54), as
filled in by the flush path.  `bucket_time` is kept as epoch seconds. -/
structure HistoryRow where
  cell_id : String
  bucket_time : ℤ
  vehicle_count : ℕ
  avg_speed : Option ℚ
deriving DecidableEq

/-- The store state read and written by the flush path: which
`history_saved` marker keys exist, the per-(cell,bucket) unique-device count
(`scard`) and speed list, and the `bucket_history` table contents. -/
structure FlushStore where
  markers : Finset (String × ℤ)
  counts : String → ℤ → ℕ
  speeds : String → ℤ → List ℚ
  history : List HistoryRow

/-- `flush_completed_bucket_to_history` (main.py lines 49-92): on a ping in
`cur`, the previous bucket `cur - 1` is appended to history unless its marker
already exists or it recorded zero devices; a successful flush sets the
marker.  The history append is the body of `save_bucket_to_history`, which is
absent from `congestion.py` and is modelled from spec section 4.5: "append one
immutable row per completed bucket". -/
def flush_completed_bucket_to_history (s : FlushStore) (cell_id : String)
    (cur : ℤ) : FlushStore × Bool :=
  let prev := cur - 1
  if (cell_id, prev) ∈ s.markers then
    (s, false)
  else
    let prev_count := s.counts cell_id prev
    if prev_count = 0 then
      (s, false)
    else
      let prev_speeds := s.speeds cell_id prev
      let prev_avg_speed : Option ℚ :=
        if prev_speeds.length ≠ 0 then some (prev_speeds.sum / prev_speeds.length) else none
      let row : HistoryRow :=
        { cell_id := cell_id
          bucket_time := prev * WINDOW_SECONDS
          vehicle_count := prev_count
          avg_speed := prev_avg_speed }
      ({ s with history := s.history ++ [row]
                markers := insert (cell_id, prev) s.markers }, true)

/-- One step of a run of the ingestion path, as far as the flush logic is
concerned: either a flush attempt (the first action of `create_ping`), or an
arbitrary environment change to the ephemeral counts and speed lists (further
pings, TTL expiry) -- which never touches markers or history. -/
inductive FlushStep where
  | flushFor (cell : String) (cur : ℤ)
  | env (counts : String → ℤ → ℕ) (speeds : String → ℤ → List ℚ)

/-- Apply a sequence of `FlushStep`s to a store. -/
def runFlushSteps : FlushStore → List FlushStep → FlushStore
  | s, [] => s
  | s, .flushFor cell cur :: rest =>
    runFlushSteps (flush_completed_bucket_to_history s cell cur).1 rest
  | s, .env c sp :: rest =>
    runFlushSteps { s with counts := c, speeds := sp } rest

/-- Number of history rows persisted for the pair (cell, bucket `b`). -/
def rowsFor (cell : String) (b : ℤ) (s : FlushStore) : ℕ :=
  (s.history.filter
    (fun r => r.cell_id == cell && r.bucket_time == b * WINDOW_SECONDS)).length

/-- `RATE_LIMIT_WINDOW_SECONDS = 60` (main.py line 22). -/
def RATE_LIMIT_WINDOW_SECONDS : ℕ := 60

/-- `RATE_LIMIT_MAX_REQUESTS = 100` (main.py line 23). -/
def RATE_LIMIT_MAX_REQUESTS : ℕ := 100

/-- Result of `check_rate_limit` (main.py lines 26-46): the counter value
after `INCR`, whether `EXPIRE` was issued, and the boolean verdict. -/
structure RateLimitOutcome where
  count : ℕ
  ttlSet : Bool
  allowed : Bool
deriving DecidableEq

/-- `check_rate_limit` (main.py lines 26-46) as a function of the device's
counter value before this request: `count = INCR(key)`; `EXPIRE` only when
`count == 1`; allowed iff `count <= RATE_LIMIT_MAX_REQUESTS`. -/
def check_rate_limit (prevCount : ℕ) : RateLimitOutcome :=
  let count := prevCount + 1
  { count := count
    ttlSet := count == 1
    allowed := count ≤ RATE_LIMIT_MAX_REQUESTS }

/-- The ingestion handler rejects with HTTP 429 exactly when
`check_rate_limit` returns false (main.py lines 159-164). -/
def ping_rejected_429 (prevCount : ℕ) : Bool :=
  !(check_rate_limit prevCount).allowed

/-- The per-(cell,bucket) effects of `create_ping` (main.py lines 178-223)
that the counting and alerting claims concern: `SADD device_id` to the
bucket's device set, `SCARD` afterwards, and the high-congestion alert
published iff that count is at least 30 (main.py line 216).  The optional
speed only feeds the speed list; the handler never consults the baseline or
the scorer. -/
structure PingOutcome where
  devices : Finset String
  speeds : List ℚ
  bucket_count : ℕ
  alertPublished : Bool
deriving DecidableEq

/-- `create_ping` bucket update (main.py lines 178-223), as a function of the
bucket's current device set and speed list. -/
def create_ping (devices : Finset String) (speeds : List ℚ)
    (device_id : String) (speed_kmh : Option ℚ) : PingOutcome :=
  let devices := insert device_id devices
  let count := devices.card
  let speeds := match speed_kmh with
    | some v => speeds ++ [v]
    | none => speeds
  { devices := devices
    speeds := speeds
    bucket_count := count
    alertPublished := 30 ≤ count }

/-- C4: the uncalibrated fallback scorer is boundary-exact.  With no speed
data: count 9 gives LOW, 10 gives MODERATE, 30 gives HIGH, and in general
count >= 30 gives HIGH, count >= 10 gives MODERATE, else LOW.  With speed
data: speed < 15 gives HIGH (strict), 15 <= speed < 40 gives MODERATE
(strict upper bound), and for speed >= 40 a count >= 30 gives MODERATE,
else LOW. -/
theorem fallback_boundary_exact :
    fallback_congestion 9 none = "LOW" ∧
    fallback_congestion 10 none = "MODERATE" ∧
    fallback_congestion 30 none = "HIGH" ∧
    (∀ c : ℤ, 30 ≤ c → fallback_congestion c none = "HIGH") ∧
    (∀ c : ℤ, 10 ≤ c → c < 30 → fallback_congestion c none = "MODERATE") ∧
    (∀ c : ℤ, c < 10 → fallback_congestion c none = "LOW") ∧
    (∀ (c : ℤ) (s : ℚ), s < 15 → fallback_congestion c (some s) = "HIGH") ∧
    (∀ (c : ℤ) (s : ℚ), 15 ≤ s → s < 40 → fallback_congestion c (some s) = "MODERATE") ∧
    (∀ (c : ℤ) (s : ℚ), 40 ≤ s → 30 ≤ c → fallback_congestion c (some s) = "MODERATE") ∧
    (∀ (c : ℤ) (s : ℚ), 40 ≤ s → c < 30 → fallback_congestion c (some s) = "LOW") := by
  refine ⟨by norm_num [fallback_congestion, FALLBACK_COUNT_HIGH, FALLBACK_COUNT_MODERATE],
    by norm_num [fallback_congestion, FALLBACK_COUNT_HIGH, FALLBACK_COUNT_MODERATE],
    by norm_num [fallback_congestion, FALLBACK_COUNT_HIGH, FALLBACK_COUNT_MODERATE],
    ?_, ?_, ?_, ?_, ?_, ?_, ?_⟩
  · intro c h
    simp only [fallback_congestion, FALLBACK_COUNT_HIGH, FALLBACK_COUNT_MODERATE]
    split_ifs with h1 <;> first | rfl | omega
  · intro c h1 h2
    simp only [fallback_congestion, FALLBACK_COUNT_HIGH, FALLBACK_COUNT_MODERATE]
    split_ifs with h3 h4 <;> first | rfl | omega
  · intro c h
    simp only [fallback_congestion, FALLBACK_COUNT_HIGH, FALLBACK_COUNT_MODERATE]
    split_ifs with h3 h4 <;> first | rfl | omega
  · intro c s h
    simp only [fallback_congestion, FALLBACK_SPEED_HIGH, FALLBACK_SPEED_MODERATE,
      FALLBACK_COUNT_HIGH]
    split_ifs with h1 <;> first | rfl | linarith
  · intro c s h1 h2
    simp only [fallback_congestion, FALLBACK_SPEED_HIGH, FALLBACK_SPEED_MODERATE,
      FALLBACK_COUNT_HIGH]
    split_ifs with h3 h4 h5 <;> first | rfl | linarith
  · intro c s h1 h2
    simp only [fallback_congestion, FALLBACK_SPEED_HIGH, FALLBACK_SPEED_MODERATE,
      FALLBACK_COUNT_HIGH]
    split_ifs with h3 h4 h5 <;> first | rfl | linarith | omega
  · intro c s h1 h2
    simp only [fallback_congestion, FALLBACK_SPEED_HIGH, FALLBACK_SPEED_MODERATE,
      FALLBACK_COUNT_HIGH]
    split_ifs with h3 h4 h5 <;> first | rfl | linarith | omega

/-- C4 witness: exercises the universally quantified clauses of
`fallback_boundary_exact` at concrete inputs. -/
theorem fallback_boundary_exact_witness :
    fallback_congestion 35 none = "HIGH" ∧
    fallback_congestion 12 (some 50) = "LOW" ∧
    fallback_congestion 5 (some 14) = "HIGH" :=
  ⟨fallback_boundary_exact.2.2.2.1 35 (by norm_num),
   fallback_boundary_exact.2.2.2.2.2.2.2.2.2 12 50 (by norm_num) (by norm_num),
   fallback_boundary_exact.2.2.2.2.2.2.1 5 14 (by norm_num)⟩

/-- C5: calibration holds iff `sample_count >= MIN_SAMPLES_FOR_CALIBRATION`;
at `MIN_SAMPLES - 1` the scorer takes the fallback path with method
"fallback" and reason "insufficient_history" (and the level is exactly the
fallback level); at `MIN_SAMPLES` it takes the calibrated path with method
"calibrated". -/
theorem calibration_boundary (b : CellBaseline) (c : ℤ) (sp : Option ℚ) :
    (b.is_calibrated = true ↔ MIN_SAMPLES_FOR_CALIBRATION ≤ b.sample_count) ∧
    (b.sample_count = MIN_SAMPLES_FOR_CALIBRATION - 1 →
      (calculate_congestion_level c sp b).2.method = "fallback" ∧
      (calculate_congestion_level c sp b).2.level_reason = "insufficient_history" ∧
      (calculate_congestion_level c sp b).1 = fallback_congestion c sp) ∧
    (b.sample_count = MIN_SAMPLES_FOR_CALIBRATION →
      (calculate_congestion_level c sp b).2.method = "calibrated") := by
  refine ⟨by simp [CellBaseline.is_calibrated], ?_, ?_⟩
  · intro h
    have hcal : b.is_calibrated = false := by
      simp [CellBaseline.is_calibrated, h, MIN_SAMPLES_FOR_CALIBRATION]
    simp [calculate_congestion_level, hcal]
  · intro h
    have hcal : b.is_calibrated = true := by
      simp [CellBaseline.is_calibrated, h]
    cases sp with
    | none => simp [calculate_congestion_level, hcal]
    | some s =>
      by_cases hs : 0 < b.avg_speed <;>
        simp [calculate_congestion_level, hcal, hs]

/-- C5 witness: `calibration_boundary` applied one sample below and at the
calibration threshold. -/
theorem calibration_boundary_witness :
    (calculate_congestion_level 5 none { sample_count := 49 }).2.method = "fallback" ∧
    (calculate_congestion_level 5 none { sample_count := 49 }).2.level_reason
      = "insufficient_history" ∧
    (calculate_congestion_level 5 none { sample_count := 50 }).2.method = "calibrated" :=
  ⟨((calibration_boundary { sample_count := 49 } 5 none).2.1 (by decide)).1,
   ((calibration_boundary { sample_count := 49 } 5 none).2.1 (by decide)).2.1,
   (calibration_boundary { sample_count := 50 } 5 none).2.2 (by decide)⟩

/-- C8: recording the same device a second time in the same (cell, bucket)
leaves the unique-device count unchanged, whatever speed data either ping
carries. -/
theorem record_same_device_idempotent (devices : Finset String) (speeds : List ℚ)
    (d : String) (sp1 sp2 : Option ℚ) :
    (create_ping (create_ping devices speeds d sp1).devices
        (create_ping devices speeds d sp1).speeds d sp2).bucket_count =
      (create_ping devices speeds d sp1).bucket_count := by
  simp [create_ping, Finset.insert_idem]

/-- C9: on ingestion the high-congestion alert is published exactly when the
bucket's unique-device count after the ping is at least 30; the outcome is a
fixed threshold on the raw count, unaffected by any speed data (and
`create_ping`'s embedding consumes no baseline and no scorer output). -/
theorem alert_iff_count_at_least_30 (devices : Finset String) (speeds : List ℚ)
    (d : String) (sp : Option ℚ) :
    ((create_ping devices speeds d sp).alertPublished = true ↔
      30 ≤ (insert d devices).card) ∧
    (create_ping devices speeds d sp).bucket_count = (insert d devices).card ∧
    (create_ping devices speeds d sp).alertPublished =
      (create_ping devices speeds d none).alertPublished := by
  simp [create_ping]

/-- C10: a ping is rejected with HTTP 429 exactly when the device counter,
incremented by this very request, exceeds `RATE_LIMIT_MAX_REQUESTS = 100`;
the counter is incremented even for rejected requests, the window TTL is set
only when the incremented counter equals 1, and the window is 60 seconds. -/
theorem rate_limit_behavior (n : ℕ) :
    (ping_rejected_429 n = true ↔ RATE_LIMIT_MAX_REQUESTS < n + 1) ∧
    (check_rate_limit n).count = n + 1 ∧
    ((check_rate_limit n).ttlSet = true ↔ n + 1 = 1) ∧
    RATE_LIMIT_WINDOW_SECONDS = 60 ∧ RATE_LIMIT_MAX_REQUESTS = 100 := by
  refine ⟨?_, rfl, ?_, rfl, rfl⟩
  · simp [ping_rejected_429, check_rate_limit]
  · simp [check_rate_limit]

/-- C3: one EMA update on a baseline with at least one prior sample blends
the count mean with factor alpha, blends the count variance with the squared
deviation from the pre-update mean, increments `sample_count` by exactly 1,
and does the same for the speed statistics when a bucket speed exists and a
prior speed mean is positive; in particular one step with alpha = 1/10 from
avg_count = 20 toward bucket_count = 30 yields exactly 21. -/
theorem ema_update_step (b : CellBaseline) (bc : ℤ) (sp : Option ℚ) (α : ℚ)
    (h : 1 ≤ b.sample_count) :
    (update_baseline_with_bucket b bc sp α).avg_count
        = (1 - α) * b.avg_count + α * (bc : ℚ) ∧
    (update_baseline_with_bucket b bc sp α).count_variance
        = (1 - α) * b.count_variance + α * ((bc : ℚ) - b.avg_count) ^ 2 ∧
    (update_baseline_with_bucket b bc sp α).sample_count = b.sample_count + 1 ∧
    (∀ s : ℚ, sp = some s → 0 < b.avg_speed →
      (update_baseline_with_bucket b bc sp α).avg_speed
          = (1 - α) * b.avg_speed + α * s ∧
      (update_baseline_with_bucket b bc sp α).speed_variance
          = (1 - α) * b.speed_variance + α * (s - b.avg_speed) ^ 2) ∧
    (update_baseline_with_bucket { avg_count := 20, sample_count := 1 }
        30 none (1 / 10)).avg_count = 21 := by
  have hne : ¬ b.sample_count = 0 := by omega
  refine ⟨by simp [update_baseline_with_bucket, hne],
    by simp [update_baseline_with_bucket, hne],
    by simp [update_baseline_with_bucket, hne], ?_, ?_⟩
  · intro s hsp hpos
    subst hsp
    constructor <;> simp [update_baseline_with_bucket, hne, hpos]
  · norm_num [update_baseline_with_bucket]

/-- C3 witness: `ema_update_step` at a concrete calib't baseline, including
the speed clause. -/
theorem ema_update_step_witness :
    (update_baseline_with_bucket { avg_count := 20, sample_count := 1 }
        30 none (1 / 10)).avg_count = 21 ∧
    (update_baseline_with_bucket
        { avg_speed := 50, avg_count := 20, sample_count := 3 }
        30 (some 40) (1 / 10)).avg_speed
      = (1 - 1 / 10) * 50 + (1 / 10) * 40 :=
  ⟨(ema_update_step { avg_count := 20, sample_count := 1 } 30 none (1 / 10)
      (by decide)).2.2.2.2,
   by
    have h := (ema_update_step
        { avg_speed := 50, avg_count := 20, sample_count := 3 }
        30 (some 40) (1 / 10) (by decide)).2.2.2.1 40 rfl (by norm_num)
    exact h.1⟩

/-- The z-score formula the claim states: deviation divided by
`max(std, 1.0)`, i.e. a divisor floored at 1.0. -/
def z_score_claimed (value mean std : ℚ) (invert : Bool) : ℚ :=
  if invert then (mean - value) / max std 1 else (value - mean) / max std 1

/-- The rational one quarter, written in lowest terms so that its numerator
and denominator are definitionally 1 and 4. -/
def oneQuarter : ℚ := ⟨1, 4, by norm_num, by simp [Nat.coprime_one_left]⟩

/-- C1 counterexample: a calibrated baseline with `count_variance = 1/4` has
`count_std = 1/2`, and the code's z-score divides by 1/2 (giving 2 for a
deviation of 1) while the claimed `max(std, 1.0)` divisor would give 1.  So
the divisor is not floored at 1.0 when 0 < variance < 1. -/
theorem z_divisor_floor_counterexample :
    calculate_z_score 3 2
        (CellBaseline.count_std { count_variance := oneQuarter, sample_count := 50 }) false
      ≠ z_score_claimed 3 2
        (CellBaseline.count_std { count_variance := oneQuarter, sample_count := 50 }) false := by
  have hq : (0 : ℚ) < oneQuarter := Rat.num_pos.mp (by decide)
  have h4 : Nat.sqrt 4 = 2 := by
    rw [show (4 : ℕ) = 2 * 2 from rfl]
    exact Nat.sqrt_eq 2
  have hstd : CellBaseline.count_std { count_variance := oneQuarter, sample_count := 50 }
      = 1 / 2 := by
    show (if oneQuarter > 0 then ratSqrt oneQuarter else 1) = 1 / 2
    rw [if_pos hq]
    show (Nat.sqrt (1 : ℤ).toNat : ℚ) / (Nat.sqrt 4 : ℚ) = 1 / 2
    rw [show ((1 : ℤ)).toNat = 1 from rfl, Nat.sqrt_one, h4]
    norm_num
  rw [hstd]
  norm_num [calculate_z_score, z_score_claimed]

/-- C1 amended: both standard-deviation properties are always strictly
positive (square root of a positive variance, else the literal 1.0), so the
z-score guard `std <= 0` never fires on them: the count z-score is
`(value - mean) / count_std` and the inverted speed z-score is
`(mean - value) / speed_std`, with the divisor equal to `sqrt(variance)`
itself — smaller than 1.0 whenever 0 < variance < 1 — and equal to 1.0 only
when the stored variance is not positive. -/
theorem z_divisor_amended (b : CellBaseline) (v m : ℚ) :
    0 < b.count_std ∧ 0 < b.speed_std ∧
    calculate_z_score v m b.count_std false = (v - m) / b.count_std ∧
    calculate_z_score v m b.speed_std true = (m - v) / b.speed_std := by
  have hsqrt : ∀ q : ℚ, 0 < q → 0 < ratSqrt q := by
    intro q hq
    have hnum : 0 < q.num := Rat.num_pos.mpr hq
    have hnum' : 0 < q.num.toNat := by omega
    have hden : 0 < q.den := q.den_pos
    exact div_pos (by exact_mod_cast Nat.sqrt_pos.mpr hnum')
      (by exact_mod_cast Nat.sqrt_pos.mpr hden)
  have hc : 0 < b.count_std := by
    unfold CellBaseline.count_std
    split_ifs with h
    · exact hsqrt _ h
    · norm_num
  have hs : 0 < b.speed_std := by
    unfold CellBaseline.speed_std
    split_ifs with h
    · exact hsqrt _ h
    · norm_num
  refine ⟨hc, hs, ?_, ?_⟩
  · simp [calculate_z_score, not_le.mpr hc]
  · simp [calculate_z_score, not_le.mpr hs]

/-- C2: every failure path of the durable-store lookup — database
unconfigured, no session, query exception, missing row — yields the empty
uncalibrated snapshot instead of an error (for both the baseline form and
the spec-modelled percentile form), and scoring with that snapshot is the
fallback verdict, one of the three level strings, never an exception. -/
theorem baseline_lookup_degrades (db : DbLookup) (c : ℤ) (sp : Option ℚ)
    (h : db.isFailure = true) :
    get_baseline db = {} ∧
    (get_baseline db).is_calibrated = false ∧
    get_cell_percentiles db = {} ∧
    (calculate_congestion_level c sp (get_baseline db)).2.method = "fallback" ∧
    (calculate_congestion_level c sp (get_baseline db)).1 = fallback_congestion c sp ∧
    ((calculate_congestion_level c sp (get_baseline db)).1 = "LOW" ∨
      (calculate_congestion_level c sp (get_baseline db)).1 = "MODERATE" ∨
      (calculate_congestion_level c sp (get_baseline db)).1 = "HIGH") := by
  have hempty : get_baseline db = {} := by
    cases db with
    | row s c sv cv n => simp [DbLookup.isFailure] at h
    | unconfigured => rfl
    | noSession => rfl
    | queryError => rfl
    | noRow => rfl
  have hperc : get_cell_percentiles db = {} := by
    cases db with
    | row s c sv cv n => simp [DbLookup.isFailure] at h
    | unconfigured => rfl
    | noSession => rfl
    | queryError => rfl
    | noRow => rfl
  have hcal : (get_baseline db).is_calibrated = false := by
    rw [hempty]
    decide
  have hlevel : (calculate_congestion_level c sp (get_baseline db)).1
      = fallback_congestion c sp := by
    simp [calculate_congestion_level, hcal]
  refine ⟨hempty, hcal, hperc, by simp [calculate_congestion_level, hcal], hlevel, ?_⟩
  rw [hlevel]
  cases sp with
  | none =>
    simp only [fallback_congestion]
    split_ifs <;> simp
  | some s =>
    simp only [fallback_congestion]
    split_ifs <;> simp

/-- C2 witness: `baseline_lookup_degrades` at the caught-exception outcome
with a concrete query. -/
theorem baseline_lookup_degrades_witness :
    get_baseline DbLookup.queryError = {} ∧
    (calculate_congestion_level 42 none (get_baseline DbLookup.queryError)).2.method
      = "fallback" ∧
    (calculate_congestion_level 42 none (get_baseline DbLookup.queryError)).1
      = fallback_congestion 42 none :=
  ⟨(baseline_lookup_degrades DbLookup.queryError 42 none rfl).1,
   (baseline_lookup_degrades DbLookup.queryError 42 none rfl).2.2.2.1,
   (baseline_lookup_degrades DbLookup.queryError 42 none rfl).2.2.2.2.1⟩

/-- C6 counterexample: at half a second before the epoch, `int()` truncates
toward zero, so the code returns bucket 0 while the claimed
`floor(epoch_seconds / 300)` is -1. -/
theorem bucket_floor_counterexample :
    current_bucket { epochUTC := -1 / 2, isNaive := false }
      ≠ bucket_of_spec { epochUTC := -1 / 2, isNaive := false } := by
  have h1 : current_bucket { epochUTC := -1 / 2, isNaive := false } = 0 := by
    show truncToInt (-1 / 2 : ℚ) / WINDOW_SECONDS = 0
    have : truncToInt (-1 / 2 : ℚ) = 0 := by
      rw [truncToInt, if_neg (by norm_num)]
      norm_num
    rw [this]
    rfl
  have h2 : bucket_of_spec { epochUTC := -1 / 2, isNaive := false } = -1 := by
    show (⌊(-1 / 2 : ℚ) / 300⌋ : ℤ) = -1
    norm_num
  rw [h1, h2]
  decide

/-- Truncation toward zero is monotone. -/
lemma truncToInt_mono {a b : ℚ} (h : a ≤ b) : truncToInt a ≤ truncToInt b := by
  unfold truncToInt
  split_ifs with h1 h2 h2
  · exact Int.floor_le_floor h
  · linarith
  · calc ⌈a⌉ ≤ 0 := Int.ceil_le.mpr (by exact_mod_cast le_of_not_le h1)
      _ ≤ ⌊b⌋ := Int.le_floor.mpr (by exact_mod_cast h2)
  · exact Int.ceil_le_ceil h

/-- Flooring after taking the integer part equals flooring the quotient:
`⌊⌊e⌋ / 300⌋ = ⌊e / 300⌋` over the rationals. -/
lemma floor_floor_div_300 (e : ℚ) : ⌊((⌊e⌋ : ℚ)) / 300⌋ = ⌊e / 300⌋ := by
  apply le_antisymm
  · apply Int.floor_le_floor
    gcongr
    exact Int.floor_le e
  · rw [Int.le_floor]
    have h2 : ((⌊e / 300⌋ : ℤ) * 300 : ℚ) ≤ e := by
      have h1 : (⌊e / 300⌋ : ℚ) ≤ e / 300 := Int.floor_le _
      have h3 := mul_le_mul_of_nonneg_right h1 (by norm_num : (0 : ℚ) ≤ 300)
      calc ((⌊e / 300⌋ : ℤ) * 300 : ℚ) = (⌊e / 300⌋ : ℚ) * 300 := by norm_num
        _ ≤ e / 300 * 300 := h3
        _ = e := by field_simp
    have h3 : (⌊e / 300⌋ * 300 : ℤ) ≤ ⌊e⌋ := Int.le_floor.mpr (by exact_mod_cast h2)
    rw [le_div_iff₀ (by norm_num : (0 : ℚ) < 300)]
    exact_mod_cast h3

/-- Integer (euclidean) division by 300 of a floor equals the floor of the
rational quotient. -/
lemma floor_ediv_300 (e : ℚ) : ⌊e⌋ / (300 : ℤ) = ⌊e / 300⌋ := by
  have h := Rat.floor_intCast_div_natCast ⌊e⌋ 300
  norm_num at h
  rw [← h]
  exact floor_floor_div_300 e

/-- C6 amended: `current_bucket` is the total function
`int-truncate-toward-zero(epoch) // 300`, naive timestamps are treated
exactly as their UTC-read aware counterpart, and it is monotone in
wall-clock time unconditionally; the claimed identities with
`floor(epoch/300)` — the floor formula itself, bucket equality iff floor
equality, and +300 seconds giving +1 bucket — hold for all timestamps with
nonnegative epoch (truncation and floor agree there), but not at negative
fractional epochs. -/
theorem bucketing_amended (t t1 t2 : PyDatetime) :
    current_bucket t = truncToInt t.epochUTC / WINDOW_SECONDS ∧
    current_bucket { epochUTC := t.epochUTC, isNaive := true }
      = current_bucket { epochUTC := t.epochUTC, isNaive := false } ∧
    (0 ≤ t.epochUTC → current_bucket t = ⌊t.epochUTC / 300⌋) ∧
    (t1.epochUTC ≤ t2.epochUTC → current_bucket t1 ≤ current_bucket t2) ∧
    (0 ≤ t1.epochUTC → 0 ≤ t2.epochUTC →
      (current_bucket t1 = current_bucket t2 ↔
        ⌊t1.epochUTC / 300⌋ = ⌊t2.epochUTC / 300⌋)) ∧
    (0 ≤ t.epochUTC →
      current_bucket { epochUTC := t.epochUTC + 300, isNaive := t.isNaive }
        = current_bucket t + 1) := by
  have hdef : ∀ u : PyDatetime, current_bucket u = truncToInt u.epochUTC / WINDOW_SECONDS := by
    intro u
    cases u with
    | mk e n => cases n <;> rfl
  have hfloor : ∀ u : PyDatetime, 0 ≤ u.epochUTC → current_bucket u = ⌊u.epochUTC / 300⌋ := by
    intro u hu
    rw [hdef u, truncToInt, if_pos hu]
    exact floor_ediv_300 u.epochUTC
  refine ⟨hdef t, by rw [hdef, hdef], hfloor t, ?_, ?_, ?_⟩
  · intro h
    rw [hdef t1, hdef t2]
    exact Int.ediv_le_ediv (by norm_num [WINDOW_SECONDS]) (truncToInt_mono h)
  · intro h1 h2
    rw [hfloor t1 h1, hfloor t2 h2]
  · intro h
    have h300 : (0 : ℚ) ≤ t.epochUTC + 300 := by linarith
    rw [hfloor t h,
      hfloor { epochUTC := t.epochUTC + 300, isNaive := t.isNaive } h300]
    show (⌊(t.epochUTC + 300) / 300⌋ : ℤ) = ⌊t.epochUTC / 300⌋ + 1
    rw [show (t.epochUTC + 300) / 300 = t.epochUTC / 300 + 1 by field_simp]
    rw [show ((1 : ℚ)) = ((1 : ℤ) : ℚ) by norm_num, Int.floor_add_int]

/-- C6 witness: `bucketing_amended` at concrete nonnegative timestamps:
epoch 650 (naive) lands in bucket 2 and adding 300 seconds adds one
bucket. -/
theorem bucketing_amended_witness :
    current_bucket { epochUTC := 650, isNaive := true } = 2 ∧
    current_bucket { epochUTC := 650 + 300, isNaive := true }
      = current_bucket { epochUTC := 650, isNaive := true } + 1 := by
  constructor
  · have h := (bucketing_amended { epochUTC := 650, isNaive := true }
      { epochUTC := 0, isNaive := false } { epochUTC := 0, isNaive := false }).2.2.1
      (by norm_num)
    rw [h]
    norm_num
  · exact (bucketing_amended { epochUTC := 650, isNaive := true }
      { epochUTC := 0, isNaive := false } { epochUTC := 0, isNaive := false }).2.2.2.2.2
      (by norm_num)

/-- A flush is a no-op when the marker for the previous bucket exists. -/
lemma flush_marker_no_op (s : FlushStore) (c : String) (cur : ℤ)
    (h : (c, cur - 1) ∈ s.markers) :
    flush_completed_bucket_to_history s c cur = (s, false) := by
  simp [flush_completed_bucket_to_history, h]

/-- A flush is a no-op when the previous bucket recorded zero devices. -/
lemma flush_zero_no_op (s : FlushStore) (c : String) (cur : ℤ)
    (h : s.counts c (cur - 1) = 0) :
    flush_completed_bucket_to_history s c cur = (s, false) := by
  by_cases hm : (c, cur - 1) ∈ s.markers
  · exact flush_marker_no_op s c cur hm
  · simp [flush_completed_bucket_to_history, hm, h]

/-- Changing only the ephemeral counts and speed lists changes neither the
history rows nor the markers. -/
lemma rowsFor_env (cell : String) (b : ℤ) (s : FlushStore)
    (c : String → ℤ → ℕ) (sp : String → ℤ → List ℚ) :
    rowsFor cell b { s with counts := c, speeds := sp } = rowsFor cell b s := rfl

/-- One flush attempt preserves the invariant "at most one history row for
(cell, b), and none at all while the (cell, b) marker is absent". -/
lemma flushInv_step (cell : String) (b : ℤ) (s : FlushStore) (c : String) (cur : ℤ)
    (h1 : rowsFor cell b s ≤ 1)
    (h2 : (cell, b) ∉ s.markers → rowsFor cell b s = 0) :
    rowsFor cell b (flush_completed_bucket_to_history s c cur).1 ≤ 1 ∧
    ((cell, b) ∉ (flush_completed_bucket_to_history s c cur).1.markers →
      rowsFor cell b (flush_completed_bucket_to_history s c cur).1 = 0) := by
  by_cases hm : (c, cur - 1) ∈ s.markers
  · rw [flush_marker_no_op s c cur hm]
    exact ⟨h1, h2⟩
  by_cases hz : s.counts c (cur - 1) = 0
  · rw [flush_zero_no_op s c cur hz]
    exact ⟨h1, h2⟩
  have hs' : (flush_completed_bucket_to_history s c cur).1 =
      { s with
          history := s.history ++
            [{ cell_id := c
               bucket_time := (cur - 1) * WINDOW_SECONDS
               vehicle_count := s.counts c (cur - 1)
               avg_speed :=
                 if (s.speeds c (cur - 1)).length ≠ 0 then
                   some ((s.speeds c (cur - 1)).sum / (s.speeds c (cur - 1)).length)
                 else none }]
          markers := insert (c, cur - 1) s.markers } := by
    simp [flush_completed_bucket_to_history, hm, hz]
  by_cases heq : c = cell ∧ cur - 1 = b
  · have hpair : (cell, b) = (c, cur - 1) := by rw [heq.1, heq.2]
    have hzero : rowsFor cell b s = 0 := h2 (by rw [hpair]; exact hm)
    have hrows : rowsFor cell b (flush_completed_bucket_to_history s c cur).1 = 1 := by
      have hz0 : (List.filter
          (fun r => r.cell_id == cell && r.bucket_time == b * WINDOW_SECONDS)
          s.history).length = 0 := hzero
      rw [hs']
      simp only [rowsFor, List.filter_append, List.length_append]
      rw [hz0]
      simp [List.filter, heq.1, heq.2]
    constructor
    · rw [hrows]
    · intro habs
      exfalso
      apply habs
      rw [hs', hpair]
      exact Finset.mem_insert_self _ _
  · have hb : ((c : String) == cell && ((cur - 1) * WINDOW_SECONDS == b * WINDOW_SECONDS))
        = false := by
      by_cases hc2 : c = cell
      · have hne : (cur - 1) * WINDOW_SECONDS ≠ b * WINDOW_SECONDS := by
          simp only [WINDOW_SECONDS]
          intro e2
          exact heq ⟨hc2, by omega⟩
        simp [hne]
      · simp [hc2]
    have hrows : rowsFor cell b (flush_completed_bucket_to_history s c cur).1
        = rowsFor cell b s := by
      rw [hs']
      simp only [rowsFor, List.filter_append, List.length_append]
      simp [List.filter, hb]
    constructor
    · rw [hrows]; exact h1
    · intro habs
      rw [hrows]
      apply h2
      intro hmem
      apply habs
      rw [hs']
      exact Finset.mem_insert_of_mem hmem

/-- Any sequence of flush attempts and environment changes preserves the
at-most-one-row invariant. -/
lemma flushInv_run (cell : String) (b : ℤ) (s : FlushStore) (steps : List FlushStep)
    (h1 : rowsFor cell b s ≤ 1)
    (h2 : (cell, b) ∉ s.markers → rowsFor cell b s = 0) :
    rowsFor cell b (runFlushSteps s steps) ≤ 1 ∧
    ((cell, b) ∉ (runFlushSteps s steps).markers →
      rowsFor cell b (runFlushSteps s steps) = 0) := by
  induction steps generalizing s with
  | nil => exact ⟨h1, h2⟩
  | cons st rest ih =>
    cases st with
    | flushFor c cur =>
      have h := flushInv_step cell b s c cur h1 h2
      exact ih _ h.1 h.2
    | env cmap smap => exact ih _ h1 h2

/-- C7: over every sequence of ping arrivals (flush attempts interleaved
with arbitrary changes to the ephemeral counts and speeds), at most one
history row is ever persisted per (cell, previous-bucket) pair; a flush is a
no-op both when the pair's marker exists and when the previous bucket
recorded zero devices; and the guarding marker's TTL (600 s) exceeds the
bucket TTL (300 s). -/
theorem flush_at_most_once (s : FlushStore) (steps : List FlushStep)
    (cell : String) (b : ℤ)
    (hrows : rowsFor cell b s = 0) (hmark : (cell, b) ∉ s.markers) :
    rowsFor cell b (runFlushSteps s steps) ≤ 1 ∧
    (∀ (st : FlushStore) (c : String) (cur : ℤ), st.counts c (cur - 1) = 0 →
      flush_completed_bucket_to_history st c cur = (st, false)) ∧
    (∀ (st : FlushStore) (c : String) (cur : ℤ), (c, cur - 1) ∈ st.markers →
      flush_completed_bucket_to_history st c cur = (st, false)) ∧
    BUCKET_TTL < HISTORY_SAVED_TTL :=
  ⟨(flushInv_run cell b s steps (by omega) (fun _ => hrows)).1,
   flush_zero_no_op, flush_marker_no_op, by norm_num [BUCKET_TTL, HISTORY_SAVED_TTL]⟩

/-- C7 witness: a store where cell "c1" recorded 3 devices in bucket 9; two
pings in bucket 10 each attempt a flush, and `flush_at_most_once` bounds the
rows persisted for ("c1", 9) by one. -/
theorem flush_at_most_once_witness :
    rowsFor "c1" 9
      (runFlushSteps
        { markers := ∅
          counts := fun c b => if c = "c1" ∧ b = 9 then 3 else 0
          speeds := fun _ _ => []
          history := [] }
        [FlushStep.flushFor "c1" 10, FlushStep.flushFor "c1" 10]) ≤ 1 :=
  (flush_at_most_once
    { markers := ∅
      counts := fun c b => if c = "c1" ∧ b = 9 then 3 else 0
      speeds := fun _ _ => []
      history := [] }
    [FlushStep.flushFor "c1" 10, FlushStep.flushFor "c1" 10]
    "c1" 9 rfl (Finset.not_mem_empty _)).1
